import Mathlib

/-!
Shallow embedding of the core of ping-and-ding.js (the poke-and-notify
evaluation engine): the prober (poke), the per-target retry loop of the
main target loop, the notification gate (ding) with the notify client,
the config validation of readConfig, and the CSV data writer (writeData).

Modelling conventions:
- JS numbers that are millisecond durations or timestamps are Nat
  (timestamps as ms since epoch); JS null/undefined is Option.none.
- The outcome of the single fetch call inside poke is an explicit
  input (Outcome): a response, an abort at the timeout bound, or any
  other transport exception.
- JS truthiness of the numeric fields (responseTimeRetries, truncateBody,
  the csv sentinels) is modelled as the value being nonzero, matching
  falsy 0; absent numeric values are modelled as 0 where the source
  only ever tests truthiness.
-/

namespace PingAndDing

/-- A JavaScript exception value, as far as the code inspects it
(err.name distinguishes the AbortError of the timeout from other
transport errors). -/
structure JsError where
  name : String
  message : String
  deriving Repr, DecidableEq

/-- The expect object of a target, with the defaults of poke line 140:
`expect = { status: 200, headers: {}, responseTime: 500, ...expect }`. -/
structure Expect where
  status : Nat := 200
  headers : List (String × String) := []
  responseTime : Nat := 500
  deriving Repr, DecidableEq

/-- The arguments of poke after destructuring:
`poke({ name, url, init={}, expect={}, timeout=5000, truncateBody=null })`.
truncateBody = 0 models the falsy JS values null and 0. -/
structure PokeArgs where
  name : String
  url : String
  expect : Expect := {}
  timeout : Nat := 5000
  truncateBody : Nat := 0
  deriving Repr, DecidableEq

/-- An HTTP response as poke observes it: status, headers, the elapsed
wall-clock time t2 - t1 in ms, and the body text. -/
structure Response where
  status : Nat
  headers : List (String × String)
  elapsed : Nat
  bodyText : String
  deriving Repr, DecidableEq

/-- What the single `await fetch(url, { ...init, signal })` call does:
a response arrives, the abort controller fires at the timeout bound,
or some other transport exception is thrown. -/
inductive Outcome where
  | response (r : Response)
  | abort
  | error (e : JsError)
  deriving Repr, DecidableEq

/-- `result.failure = { type, description, ...rest }` as built by fail():
rest is the body field (STATUS) or the headers field (HEADER). -/
structure FailureRecord where
  type : String
  description : String
  body : Option String := none
  headers : Option (List (String × String)) := none
  deriving Repr, DecidableEq

/-- `const result = { name, url, timestamp: null, status: null,
responseTime: null }` plus the optional failure field. -/
structure Result where
  name : String
  url : String
  timestamp : Option String := none
  status : Option Nat := none
  responseTime : Option Nat := none
  failure : Option FailureRecord := none
  deriving Repr, DecidableEq

/-- `response.headers.has(key)`. -/
def headersHas (hs : List (String × String)) (k : String) : Bool :=
  (hs.lookup k).isSome

/-- `response.headers.get(key)` (none models null). -/
def headersGet (hs : List (String × String)) (k : String) : Option String :=
  hs.lookup k

/-- The per-pair test of the header check, poke line 180:
`!(response.headers.has(key) && (val === '' || response.headers.get(key) === val))`. -/
def headerPairFails (observed : List (String × String)) (k v : String) : Bool :=
  !(headersHas observed k && (v == "" || headersGet observed k == some v))

/-- The forEach over Object.entries(expect.headers) guards each fail()
with `failed ||`, so the recorded header failure is the first failing
pair in iteration order. -/
def firstFailingHeader (observed expected : List (String × String)) :
    Option (String × String) :=
  expected.find? (fun kv => headerPairFails observed kv.1 kv.2)

/-- Description of the TIMEOUT failure. -/
def timeoutDesc (timeout : Nat) : String :=
  "Didn\x27t respond within " ++ toString timeout ++ "ms"

/-- Description of the STATUS failure. -/
def statusDesc (expected : Nat) : String :=
  "Didn\x27t respond with status " ++ toString expected

/-- Description of the HEADER failure (both branches name the header key). -/
def headerDesc (k v : String) : String :=
  if v == "" then "Missing header \"" ++ k ++ "\""
  else "Missing header \"" ++ k ++ "\": \"" ++ v ++ "\""

/-- Description of the RESPONSE_TIME failure. -/
def responseTimeDesc (maxMs : Nat) : String :=
  "Response took longer than " ++ toString maxMs ++ "ms"

/-- Body of the STATUS failure record:
`(truncateBody && text.length > truncateBody) ? text.slice(0, truncateBody) + '...[truncated]' : text`. -/
def truncatedBody (truncateBody : Nat) (text : String) : String :=
  if truncateBody ≠ 0 ∧ text.length > truncateBody
  then (text.take truncateBody) ++ "...[truncated]"
  else text

/-- First-detected-wins: every call site of fail() is guarded by
`failed ||`, so the first failing check is the one recorded. -/
def firstFailure (f1 f2 f3 : Option FailureRecord) : Option FailureRecord :=
  match f1 with
  | some f => some f
  | none =>
    match f2 with
    | some f => some f
    | none => f3

/-- The checks of poke lines 166-194, run in source order on a response:
STATUS (line 170), HEADER (line 179), RESPONSE_TIME (line 189). -/
def checkedResult (a : PokeArgs) (ts : String) (r : Response) : Result :=
  let f1 : Option FailureRecord :=
    if r.status ≠ a.expect.status then
      some { type := "STATUS", description := statusDesc a.expect.status,
             body := some (truncatedBody a.truncateBody r.bodyText) }
    else none
  let f2 : Option FailureRecord :=
    match firstFailingHeader r.headers a.expect.headers with
    | some kv => some { type := "HEADER", description := headerDesc kv.1 kv.2,
                        headers := some r.headers }
    | none => none
  let f3 : Option FailureRecord :=
    if r.elapsed > a.expect.responseTime then
      some { type := "RESPONSE_TIME", description := responseTimeDesc a.expect.responseTime }
    else none
  { name := a.name, url := a.url, timestamp := some ts,
    status := some r.status, responseTime := some r.elapsed,
    failure := firstFailure f1 f2 f3 }

/-- The result as initialized at poke line 142, with the timestamp of
line 161 already set (it is assigned before the fetch in every path). -/
def initResult (a : PokeArgs) (ts : String) : Result :=
  { name := a.name, url := a.url, timestamp := some ts }

/-- The fetch seen as a fallible operation: the abort path surfaces as
an exception whose name is AbortError. -/
def fetchResult : Outcome → Except JsError Response
  | Outcome.response r => Except.ok r
  | Outcome.abort => Except.error { name := "AbortError", message := "The operation was aborted" }
  | Outcome.error e => Except.error e

/-- poke up to and including its catch clause (lines 155-205): the try
body runs the checks; the catch turns an AbortError into the TIMEOUT
failure and merely logs any other error, returning the partially
populated result without a failure. An Except.error value would mean an
exception escaping poke. -/
def pokeE (a : PokeArgs) (ts : String) (out : Outcome) : Except JsError Result :=
  match fetchResult out with
  | Except.ok r => Except.ok (checkedResult a ts r)
  | Except.error e =>
    if e.name = "AbortError" then
      Except.ok { initResult a ts with
                  failure := some { type := "TIMEOUT", description := timeoutDesc a.timeout } }
    else
      Except.ok (initResult a ts)

/-- poke as its callers see it: the finally clause (line 213) returns
the result, so a Result always comes back. -/
def poke (a : PokeArgs) (ts : String) (out : Outcome) : Result :=
  match pokeE a ts out with
  | Except.ok r => r
  | Except.error _ => initResult a ts

/-- A target after the default-merging of the main section (DEFAULTS.target). -/
structure Target where
  name : String
  url : String
  expect : Expect := {}
  responseTimeRetries : Nat := 0
  timeout : Nat := 5000
  truncateBody : Nat := 1000
  notifierCooldownMins : Nat := 0
  deriving Repr, DecidableEq

/-- `ping(target)` forwards the target fields to poke. -/
def pokeArgsOf (t : Target) : PokeArgs :=
  { name := t.name, url := t.url, expect := t.expect,
    timeout := t.timeout, truncateBody := t.truncateBody }

/-- The i-th probe of a target during one run: probes gives the fetch
outcome and ts the start timestamp of each attempt. -/
def pokeAt (t : Target) (probes : Nat → Outcome) (ts : Nat → String) (i : Nat) : Result :=
  poke (pokeArgsOf t) (ts i) (probes i)

/-- State of the retry loop of the main target loop (lines 435-452)
when it finishes: the results of the retry probes in order, the results
passed to ding inside the loop, the responseTimeFailures counter, and
the current value of the result variable. -/
structure LoopOut where
  results : List Result
  dings : List Result
  counter : Nat
  last : Result
  deriving Repr, DecidableEq

/-- The retry loop `for (let i = 0; i < target.responseTimeRetries; i++)`,
lines 435-452: fuel is the number of iterations left, idx the index of
the next probe, counter the responseTimeFailures variable, last the
current result variable. A failure of type RESPONSE_TIME increments the
counter and continues; any other failure dings and breaks; no failure
breaks. -/
def retryLoop (t : Target) (probes : Nat → Outcome) (ts : Nat → String) :
    Nat → Nat → Nat → Result → LoopOut
  | 0, _, counter, last => { results := [], dings := [], counter := counter, last := last }
  | fuel+1, idx, counter, _ =>
    let r := pokeAt t probes ts idx
    match r.failure with
    | some f =>
      if f.type = "RESPONSE_TIME" ∧ t.responseTimeRetries ≠ 0 then
        let rest := retryLoop t probes ts fuel (idx+1) (counter+1) r
        { rest with results := r :: rest.results }
      else
        { results := [r], dings := [r], counter := counter, last := r }
    | none => { results := [r], dings := [], counter := counter, last := r }

/-- One pass of the main target loop for one target (lines 423-461),
without the I/O: the list of probe results produced (each is written to
the data and warn logs) and the list of results for which ding is
invoked. -/
structure TargetRun where
  results : List Result
  dings : List Result
  deriving Repr, DecidableEq

/-- Lines 423-461: probe once; on no failure, done; on a RESPONSE_TIME
failure with a nonzero retry budget, run the retry loop starting with
responseTimeFailures = 1 and ding afterwards only when the counter
exceeds the budget; on any other failure, ding at once. -/
def evalTarget (t : Target) (probes : Nat → Outcome) (ts : Nat → String) : TargetRun :=
  let r0 := pokeAt t probes ts 0
  match r0.failure with
  | none => { results := [r0], dings := [] }
  | some f =>
    if f.type = "RESPONSE_TIME" ∧ t.responseTimeRetries ≠ 0 then
      let lo := retryLoop t probes ts t.responseTimeRetries 1 1 r0
      let post := if t.responseTimeRetries ≠ 0 ∧ lo.counter > t.responseTimeRetries
                  then [lo.last] else []
      { results := r0 :: lo.results, dings := lo.dings ++ post }
    else
      { results := [r0], dings := [r0] }

/-- The notifier entry of the config after defaults. -/
structure NotifierConfig where
  url : String
  timeout : Nat := 10000
  deriving Repr, DecidableEq

/-- `async function notify({ result, notifier, logger })`, lines 220-229:
it awaits notifySlack inside a try/catch and logs, but has no return
statement, so its value is always undefined (modelled as none).
sendOk is whether the underlying notifySlack call would succeed. -/
def notify (_result : Result) (_sendOk : Bool) : Option Bool :=
  none

/-- JS truthiness of the value returned by notify. -/
def jsTruthy : Option Bool → Bool
  | none => false
  | some b => b

/-- `STATE.lastNotificationTime[target.name] = ...`: set a key of the
JS object (modelled as an association list keyed by target name, values
are parsed timestamps in ms). -/
def setEntry (m : List (String × Nat)) (k : String) (v : Nat) : List (String × Nat) :=
  (k, v) :: m.filter (fun p => p.1 ≠ k)

/-- `Date.parse(STATE.lastNotificationTime[target.name]) || 0`: a missing
entry (undefined, parsing to NaN) becomes 0. -/
def lookupMs (m : List (String × Nat)) (k : String) : Nat :=
  (m.lookup k).getD 0

/-- What one ding call did: whether the send branch was entered
(Sending notification...) and the lastNotificationTime map afterwards. -/
structure DingOut where
  attempted : Bool
  state : List (String × Nat)
  deriving Repr, DecidableEq

/-- `async function ding(target, result)`, lines 308-323: return at once
when the config has no notifier; otherwise gate on
`elapsed >= cooldown * 60 * 1000` and update the state only when the
value returned by notify is truthy. now is Date.now() in ms. -/
def ding (notifier : Option NotifierConfig) (state : List (String × Nat)) (t : Target)
    (result : Result) (now : Nat) (sendOk : Bool) : DingOut :=
  match notifier with
  | none => { attempted := false, state := state }
  | some _ =>
    let prev : Nat := lookupMs state t.name
    let elapsed : Int := (now : Int) - (prev : Int)
    let cooldown : Nat := t.notifierCooldownMins
    if elapsed ≥ (cooldown : Int) * 60 * 1000 then
      let success := notify result sendOk
      let state2 := if jsTruthy success then setEntry state t.name now else state
      { attempted := true, state := state2 }
    else
      { attempted := false, state := state }

/-- Per-target environment for one run: fetch outcomes and start
timestamps of the probes, Date.now() at notification time, and whether
a Slack send would succeed. -/
structure TargetEnv where
  probes : Nat → Outcome
  ts : Nat → String
  now : Nat
  sendOk : Bool

/-- One iteration of the main target loop including the notification
gate: the probe results, the state map after the ding calls, and how
many sends were attempted. -/
def processTarget (notifier : Option NotifierConfig) (st : List (String × Nat))
    (t : Target) (env : TargetEnv) : TargetRun × List (String × Nat) × Nat :=
  let run := evalTarget t env.probes env.ts
  let step := run.dings.foldl
    (fun acc r =>
      let d := ding notifier acc.1 t r env.now env.sendOk
      (d.state, acc.2 + (if d.attempted then 1 else 0)))
    (st, 0)
  (run, step.1, step.2)

/-- The whole main loop `for (let target of CONFIG.targets)`: threading
the state map through the targets and counting attempted sends. -/
def runAll (notifier : Option NotifierConfig) :
    List (Target × TargetEnv) → List (String × Nat) →
    List TargetRun × List (String × Nat) × Nat
  | [], st => ([], st, 0)
  | (t, env) :: rest, st =>
    let p := processTarget notifier st t env
    let r := runAll notifier rest p.2.1
    (p.1 :: r.1, r.2.1, p.2.2 + r.2.2)

/-- A target object as readConfig sees it before validation: only the
presence and stringness of name and url matter. -/
structure RawTarget where
  name : Option String
  url : Option String
  deriving Repr, DecidableEq

/-- The notifier object as readConfig sees it. -/
structure RawNotifier where
  url : Option String
  deriving Repr, DecidableEq

/-- The parsed config document as readConfig sees it. -/
structure RawConfig where
  targets : Option (List RawTarget)
  notifier : Option RawNotifier
  deriving Repr, DecidableEq

/-- The per-target checks of readConfig lines 332-338: each target needs
a name string and a url string, and names must be unique. -/
def validTargets : List RawTarget → List String → Bool
  | [], _ => true
  | t :: rest, used =>
    match t.name, t.url with
    | some n, some _ => !(used.contains n) && validTargets rest (n :: used)
    | _, _ => false

/-- The validation of readConfig, lines 329-340: the config must have a
targets array, targets must validate, and a notifier entry, when
present, must have a url (line 339: a missing notifier is accepted). -/
def validateConfig (c : RawConfig) : Bool :=
  c.targets.isSome &&
  validTargets (c.targets.getD []) [] &&
  (match c.notifier with
   | some n => n.url.isSome
   | none => true)

/-- `x || d` for the csv sentinels of writeData: null and 0 are falsy. -/
def jsOrElse (o : Option Nat) (dflt : Int) : Int :=
  match o with
  | some v => if v = 0 then dflt else (v : Int)
  | none => dflt

/-- The line array of writeData, lines 351-355:
`[result.timestamp, result.responseTime || -1, result.status || 0]`. -/
def dataRow (r : Result) : Option String × Int × Int :=
  (r.timestamp, jsOrElse r.responseTime (-1), jsOrElse r.status 0)

/-- The per-target csv file: whether it already exists (the header line
is appended when it does not) and the data rows appended so far. -/
structure DataFile where
  present : Bool := false
  headerRows : Nat := 0
  rows : List (Option String × Int × Int) := []
  deriving DecidableEq

/-- `writeData(name, result)`, lines 349-360: write the header when the
file does not exist yet, then append the line. -/
def writeData (f : DataFile) (r : Result) : DataFile :=
  let f2 := if f.present then f
            else { f with present := true, headerRows := f.headerRows + 1 }
  { f2 with rows := f2.rows ++ [dataRow r] }

/-- The probe attempt at index i recorded a RESPONSE_TIME failure (the
condition that keeps the retry loop going). -/
def rtFails (t : Target) (probes : Nat → Outcome) (ts : Nat → String) (i : Nat) : Prop :=
  (pokeAt t probes ts i).failure.map FailureRecord.type = some "RESPONSE_TIME"

/-- Modelled from the spec (amended §3 invariant): the probe timed out
(the cancellation surfaces as an exception named AbortError), or at
least one of the three expectation checks failed on the response;
non-timeout transport errors are excluded. Used to compare the failure
field of poke against the spec wording. -/
def specHasFailure (a : PokeArgs) : Outcome → Bool
  | Outcome.abort => true
  | Outcome.error e => decide (e.name = "AbortError")
  | Outcome.response r =>
    decide (r.status ≠ a.expect.status) ||
    (firstFailingHeader r.headers a.expect.headers).isSome ||
    decide (r.elapsed > a.expect.responseTime)

/-- Fixture: a response that meets the default expectations except the
500ms response-time threshold. -/
def slowOutcome : Outcome :=
  Outcome.response { status := 200, headers := [], elapsed := 700, bodyText := "" }

/-- Fixture: a response that meets all default expectations. -/
def okOutcome : Outcome :=
  Outcome.response { status := 200, headers := [], elapsed := 100, bodyText := "" }

/-- Fixture: a response with a wrong status code. -/
def badStatusOutcome : Outcome :=
  Outcome.response { status := 500, headers := [], elapsed := 100, bodyText := "oops" }

/-- Fixture: a constant timestamp source. -/
def constT : Nat → String := fun _ => "T"

/-- Fixture: a target with responseTimeRetries = 2 and default expectations. -/
def exTarget2 : Target := { name := "Example", url := "u", responseTimeRetries := 2 }

/-- Fixture: a target with responseTimeRetries = 1 and default expectations. -/
def oneRetryTarget : Target := { name := "Example", url := "u", responseTimeRetries := 1 }

/-- Fixture: every probe gets the slow response. -/
def allSlow : Nat → Outcome := fun _ => slowOutcome

/-- Fixture: two slow responses, then a fully passing one. -/
def twoSlowThenOk : Nat → Outcome := fun i => if i < 2 then slowOutcome else okOutcome

/-- Fixture: a slow response, then a fully passing one. -/
def slowThenOk : Nat → Outcome := fun i => if i = 0 then slowOutcome else okOutcome

/-- Fixture: a slow response, then one with a wrong status code. -/
def slowThenBadStatus : Nat → Outcome := fun i => if i = 0 then slowOutcome else badStatusOutcome

theorem firstFailure_some_left (f : FailureRecord) (f2 f3 : Option FailureRecord) :
    firstFailure (some f) f2 f3 = some f := rfl

theorem firstFailure_none_some (f : FailureRecord) (f3 : Option FailureRecord) :
    firstFailure none (some f) f3 = some f := rfl

theorem firstFailure_none_none (f3 : Option FailureRecord) :
    firstFailure none none f3 = f3 := rfl

/-- Claim C1: every Result of a probe has at most one FailureRecord,
first-detected-wins under the precedence TIMEOUT over STATUS over the
header check (type literal HEADER in the code) over RESPONSE_TIME: an
aborted request yields TIMEOUT whatever the expectations; a response
with a wrong status yields STATUS even when it is also over the time
threshold; the header check fires only when the status check passed;
RESPONSE_TIME only when both earlier checks passed. -/
theorem poke_failure_precedence (a : PokeArgs) (ts : String) (r : Response) (out : Outcome) :
    ((poke a ts Outcome.abort).failure.map FailureRecord.type = some "TIMEOUT") ∧
    (r.status ≠ a.expect.status →
      (poke a ts (Outcome.response r)).failure.map FailureRecord.type = some "STATUS") ∧
    (r.status = a.expect.status → (firstFailingHeader r.headers a.expect.headers).isSome →
      (poke a ts (Outcome.response r)).failure.map FailureRecord.type = some "HEADER") ∧
    (r.status = a.expect.status → firstFailingHeader r.headers a.expect.headers = none →
      r.elapsed > a.expect.responseTime →
      (poke a ts (Outcome.response r)).failure.map FailureRecord.type = some "RESPONSE_TIME") ∧
    (∀ f g, (poke a ts out).failure = some f → (poke a ts out).failure = some g → f = g) := by
  refine ⟨by simp [poke, pokeE, fetchResult], ?_, ?_, ?_, ?_⟩
  · intro h
    simp [poke, pokeE, fetchResult, checkedResult, if_pos h, firstFailure]
  · intro h1 h2
    rcases Option.isSome_iff_exists.mp h2 with ⟨kv, hk⟩
    simp [poke, pokeE, fetchResult, checkedResult, if_neg (not_ne_iff.mpr h1), hk, firstFailure]
  · intro h1 h2 h3
    simp [poke, pokeE, fetchResult, checkedResult, if_neg (not_ne_iff.mpr h1), h2,
      if_pos h3, firstFailure]
  · intro f g hf hg
    rw [hf] at hg
    exact (Option.some.injEq _ _ ▸ hg)

/-- Witness for C1 at concrete inputs: an aborted probe yields TIMEOUT,
and a response that has the wrong status and is over the time threshold
yields STATUS. -/
theorem poke_failure_precedence_witness :
    (poke { name := "Example", url := "u" } "T" Outcome.abort).failure.map
      FailureRecord.type = some "TIMEOUT" ∧
    (poke { name := "Example", url := "u" } "T"
        (Outcome.response { status := 500, headers := [], elapsed := 700, bodyText := "oops" })).failure.map
      FailureRecord.type = some "STATUS" := by
  constructor
  · exact (poke_failure_precedence { name := "Example", url := "u" } "T"
      { status := 500, headers := [], elapsed := 700, bodyText := "oops" } Outcome.abort).1
  · exact (poke_failure_precedence { name := "Example", url := "u" } "T"
      { status := 500, headers := [], elapsed := 700, bodyText := "oops" } Outcome.abort).2.1
      (by decide)

/-- Claim C3 (code bug): ding never updates the lastNotificationTime
map, because notify has no return statement, so the success value at
line 317 is always undefined and the guarded assignment of line 318
never runs. First conjunct: the state after any ding call equals the
state before. The remaining conjuncts evaluate the failing input: a
target with cooldown 0, an empty prior state and a succeeding Slack
send does enter the send branch, yet the state stays empty, where the
claim requires the entry to advance to now. -/
theorem ding_never_updates_state (notifier : Option NotifierConfig)
    (st : List (String × Nat)) (t : Target) (res : Result) (now : Nat) (sendOk : Bool) :
    (ding notifier st t res now sendOk).state = st ∧
    (ding (some { url := "https://hooks.example" }) []
        { name := "Example", url := "http://example.com" }
        { name := "Example", url := "http://example.com" } 900000 true).attempted = true ∧
    (ding (some { url := "https://hooks.example" }) []
        { name := "Example", url := "http://example.com" }
        { name := "Example", url := "http://example.com" } 900000 true).state = [] := by
  refine ⟨?_, by decide, by decide⟩
  rcases notifier with _ | n
  · rfl
  · simp only [ding, notify, jsTruthy]
    split <;> rfl

/-- Claim C4: while the elapsed time since the stored timestamp is
below the cooldown, ding does not enter the send branch and leaves the
state unchanged; a missing entry reads as 0 (never notified); with a
notifier configured, a cooldown of 0 and a stored timestamp not in the
future, the send branch is always entered. -/
theorem ding_cooldown_suppression (notifier : Option NotifierConfig)
    (st : List (String × Nat)) (t : Target) (res : Result) (now : Nat) (sendOk : Bool) :
    ((now : Int) - (lookupMs st t.name : Int) < (t.notifierCooldownMins : Int) * 60 * 1000 →
      (ding notifier st t res now sendOk).attempted = false ∧
      (ding notifier st t res now sendOk).state = st) ∧
    (st.lookup t.name = none → lookupMs st t.name = 0) ∧
    (∀ n, notifier = some n → t.notifierCooldownMins = 0 → lookupMs st t.name ≤ now →
      (ding notifier st t res now sendOk).attempted = true) := by
  refine ⟨?_, ?_, ?_⟩
  · intro h
    rcases notifier with _ | n
    · exact ⟨rfl, rfl⟩
    · simp only [ding]
      rw [if_neg (not_le.mpr h)]
      exact ⟨rfl, rfl⟩
  · intro h
    simp [lookupMs, h]
  · intro n hn h0 hle
    subst hn
    simp only [ding]
    rw [if_pos (by rw [h0]; push_cast; omega)]

/-- Witness for C4 at concrete inputs: with a 10 minute cooldown and a
timestamp recorded 5 minutes before now, the notification is
suppressed and the state is untouched; with cooldown 0 and an empty
state, the send branch is entered. -/
theorem ding_cooldown_suppression_witness :
    ((ding (some { url := "w" }) [("Example", 300000)]
        { name := "Example", url := "u", notifierCooldownMins := 10 }
        { name := "Example", url := "u" } 600000 true).attempted = false ∧
      (ding (some { url := "w" }) [("Example", 300000)]
        { name := "Example", url := "u", notifierCooldownMins := 10 }
        { name := "Example", url := "u" } 600000 true).state = [("Example", 300000)]) ∧
    (ding (some { url := "w" }) []
        { name := "Example", url := "u" }
        { name := "Example", url := "u" } 600000 true).attempted = true := by
  constructor
  · exact (ding_cooldown_suppression (some { url := "w" }) [("Example", 300000)]
      { name := "Example", url := "u", notifierCooldownMins := 10 }
      { name := "Example", url := "u" } 600000 true).1 (by decide)
  · exact (ding_cooldown_suppression (some { url := "w" }) []
      { name := "Example", url := "u" }
      { name := "Example", url := "u" } 600000 true).2.2 { url := "w" } rfl rfl (by decide)

/-- Counterexample for C5: a non-timeout transport error (the fetch
throws a FetchError) yields a Result with no FailureRecord although the
probe did not complete (no status was recorded), refuting the
if-and-only-if of the claim. -/
theorem transport_error_no_failure_cex :
    (poke { name := "Example", url := "u" } "T"
        (Outcome.error { name := "FetchError", message := "ECONNREFUSED" })).failure = none ∧
    (poke { name := "Example", url := "u" } "T"
        (Outcome.error { name := "FetchError", message := "ECONNREFUSED" })).status = none := by
  exact ⟨rfl, rfl⟩

/-- Claim C5 amended: a Result has a FailureRecord exactly when the
probe timed out or at least one expectation check failed on the
response; a non-timeout transport error yields a Result without a
FailureRecord. -/
theorem failure_iff_check_failed_or_timeout (a : PokeArgs) (ts : String) (out : Outcome) :
    (poke a ts out).failure.isSome = specHasFailure a out := by
  rcases out with r | _ | e
  · simp only [poke, pokeE, fetchResult, checkedResult, specHasFailure]
    rcases hs : decide (r.status ≠ a.expect.status) with _ | _
    · rcases hk : firstFailingHeader r.headers a.expect.headers with _ | kv
      · rcases ht : decide (r.elapsed > a.expect.responseTime) with _ | _
        · simp_all [firstFailure]
        · simp_all [firstFailure]
      · simp_all [firstFailure]
    · simp_all [firstFailure]
  · simp [poke, pokeE, fetchResult, specHasFailure]
  · by_cases h : e.name = "AbortError" <;>
      simp [poke, pokeE, fetchResult, specHasFailure, h, initResult]

/-- Claim C6: poke never throws — for every outcome of the underlying
fetch (a response, the abort at the timeout bound, or any other
transport exception) the try/catch body produces an ok value, which the
finally clause hands to the caller as the returned Result. -/
theorem poke_never_throws (a : PokeArgs) (ts : String) (out : Outcome) :
    pokeE a ts out = Except.ok (poke a ts out) := by
  rcases out with r | _ | e
  · rfl
  · rfl
  · by_cases h : e.name = "AbortError" <;> simp [poke, pokeE, fetchResult, h]

theorem headerPairFails_iff (obs : List (String × String)) (k v : String) :
    headerPairFails obs k v = true ↔
      (headersGet obs k = none ∨ (v ≠ "" ∧ headersGet obs k ≠ some v)) := by
  unfold headerPairFails headersHas headersGet
  rcases h : obs.lookup k with _ | w <;> simp [h]

/-- Counterexample for C8: the type literal the code stores for a
failing header check is HEADER, not HEADERS — at a concrete probe with
a missing expected header the recorded FailureRecord.type is HEADER. -/
theorem header_failure_type_cex :
    (poke { name := "Example", url := "u", expect := { headers := [("x-test", "")] } } "T"
        (Outcome.response { status := 200, headers := [], elapsed := 0, bodyText := "" })).failure.map
      FailureRecord.type = some "HEADER" ∧
    ("HEADER" : String) ≠ "HEADERS" := by
  exact ⟨rfl, by decide⟩

/-- Claim C8 amended (the type literal is HEADER, not HEADERS): when
the status check passes, the probe records a header failure exactly
when some expected pair fails; a pair fails exactly when the header is
absent, or present with a value different from a non-empty expected
value; an expected value of the empty string only requires presence;
the recorded FailureRecord carries the description naming the first
failing header and the full observed header set. -/
theorem header_check_characterization (a : PokeArgs) (ts : String) (r : Response)
    (hst : r.status = a.expect.status) :
    ((poke a ts (Outcome.response r)).failure.map FailureRecord.type = some "HEADER" ↔
      ∃ kv ∈ a.expect.headers, headerPairFails r.headers kv.1 kv.2 = true) ∧
    (∀ k v, headerPairFails r.headers k v = true ↔
      (headersGet r.headers k = none ∨ (v ≠ "" ∧ headersGet r.headers k ≠ some v))) ∧
    (∀ k, headerPairFails r.headers k "" = true ↔ headersGet r.headers k = none) ∧
    (∀ kv, firstFailingHeader r.headers a.expect.headers = some kv →
      (poke a ts (Outcome.response r)).failure =
        some { type := "HEADER", description := headerDesc kv.1 kv.2,
               headers := some r.headers }) := by
  refine ⟨?_, fun k v => headerPairFails_iff r.headers k v, ?_, ?_⟩
  · rcases hk : firstFailingHeader r.headers a.expect.headers with _ | kv
    · have hk2 : List.find? (fun kv => headerPairFails r.headers kv.1 kv.2)
          a.expect.headers = none := hk
      have hred : (poke a ts (Outcome.response r)).failure.map FailureRecord.type =
          (if r.elapsed > a.expect.responseTime then some "RESPONSE_TIME" else none) := by
        simp only [poke, pokeE, fetchResult, checkedResult, if_neg (not_ne_iff.mpr hst), hk,
          firstFailure_none_none]
        split <;> rfl
      rw [hred]
      constructor
      · intro hmap
        exfalso
        revert hmap
        split <;> simp
      · rintro ⟨kv, hkv, hfail⟩
        exact absurd hfail (List.find?_eq_none.mp hk2 kv hkv)
    · have hk2 : List.find? (fun kv => headerPairFails r.headers kv.1 kv.2)
          a.expect.headers = some kv := hk
      have hred : (poke a ts (Outcome.response r)).failure =
          some { type := "HEADER", description := headerDesc kv.1 kv.2,
                 headers := some r.headers } := by
        simp only [poke, pokeE, fetchResult, checkedResult, if_neg (not_ne_iff.mpr hst), hk,
          firstFailure_none_some]
      constructor
      · intro _
        exact ⟨kv, List.mem_of_find?_eq_some hk2, by simpa using List.find?_some hk2⟩
      · intro _
        rw [hred]
        rfl
  · intro k
    simp [headerPairFails_iff]
  · intro kv hk
    simp only [poke, pokeE, fetchResult, checkedResult, if_neg (not_ne_iff.mpr hst), hk,
      firstFailure_none_some]

/-- Witness for C8 at a concrete input: with one expected header pair
("x-test", "") and an empty observed header set, the characterization
holds (and the header check indeed fails, recording type HEADER). -/
theorem header_check_characterization_witness :
    ((poke { name := "Example", url := "u", expect := { headers := [("x-test", "")] } } "T"
        (Outcome.response { status := 200, headers := [("a", "b")], elapsed := 0, bodyText := "" })).failure.map
      FailureRecord.type = some "HEADER" ↔
      ∃ kv ∈ [("x-test", "")], headerPairFails [("a", "b")] kv.1 kv.2 = true) := by
  exact (header_check_characterization
    { name := "Example", url := "u", expect := { headers := [("x-test", "")] } } "T"
    { status := 200, headers := [("a", "b")], elapsed := 0, bodyText := "" } rfl).1

/-- Counterexample for C9: a response received in 0 ms is logged with
the -1 response-time sentinel (JS 0 is falsy in `result.responseTime || -1`)
although a response was received — the recorded status is 200 — so the
sentinel does not hold if and only if no response was received. -/
theorem data_row_sentinel_cex :
    dataRow (poke { name := "Example", url := "u" } "T"
        (Outcome.response { status := 200, headers := [], elapsed := 0, bodyText := "" })) =
      (some "T", -1, 200) ∧
    (poke { name := "Example", url := "u" } "T"
        (Outcome.response { status := 200, headers := [], elapsed := 0, bodyText := "" })).status =
      some 200 := by
  exact ⟨rfl, rfl⟩

/-- Claim C9 amended: each writeData call appends exactly one row with
the columns in the literal order timestamp, response time, status; the
response-time column holds -1 exactly when responseTime is absent or 0
(both falsy in JS), and the status column holds 0 exactly when status
is absent or 0. -/
theorem writeData_appends_row_sentinels (f : DataFile) (r : Result) :
    (writeData f r).rows = f.rows ++ [dataRow r] ∧
    (dataRow r).1 = r.timestamp ∧
    ((dataRow r).2.1 = -1 ↔ (r.responseTime = none ∨ r.responseTime = some 0)) ∧
    ((dataRow r).2.2 = 0 ↔ (r.status = none ∨ r.status = some 0)) := by
  refine ⟨?_, rfl, ?_, ?_⟩
  · simp only [writeData]
    split <;> simp
  · rcases h : r.responseTime with _ | v
    · simp [dataRow, jsOrElse, h]
    · simp only [dataRow, jsOrElse, h]
      rcases Nat.eq_zero_or_pos v with rfl | hv
      · simp
      · have hne : v ≠ 0 := by omega
        have hni : ¬ ((v : Int) = -1) := by omega
        simp [hne, hni]
  · rcases h : r.status with _ | v
    · simp [dataRow, jsOrElse, h]
    · simp only [dataRow, jsOrElse, h]
      rcases Nat.eq_zero_or_pos v with rfl | hv
      · simp
      · have hne : v ≠ 0 := by omega
        have hni : ¬ ((v : Int) = 0) := by omega
        simp [hne, hni]

/-- Witness for C9 at a concrete input: a probe with no response (a
transport error) appends the row with both sentinels. -/
theorem writeData_appends_row_sentinels_witness :
    (writeData {} (poke { name := "Example", url := "u" } "T"
        (Outcome.error { name := "FetchError", message := "x" }))).rows =
      [(some "T", -1, 0)] ∧
    ((dataRow (poke { name := "Example", url := "u" } "T"
        (Outcome.error { name := "FetchError", message := "x" }))).2.1 = -1 ↔
      ((poke { name := "Example", url := "u" } "T"
        (Outcome.error { name := "FetchError", message := "x" })).responseTime = none ∨
       (poke { name := "Example", url := "u" } "T"
        (Outcome.error { name := "FetchError", message := "x" })).responseTime = some 0)) := by
  constructor
  · have h := (writeData_appends_row_sentinels {} (poke { name := "Example", url := "u" } "T"
      (Outcome.error { name := "FetchError", message := "x" }))).1
    simpa using h
  · exact (writeData_appends_row_sentinels {} (poke { name := "Example", url := "u" } "T"
      (Outcome.error { name := "FetchError", message := "x" }))).2.2.1

theorem foldl_ding_none (t : Target) (now : Nat) (sendOk : Bool) (dings : List Result)
    (acc : List (String × Nat) × Nat) :
    dings.foldl (fun acc r =>
      let d := ding none acc.1 t r now sendOk
      (d.state, acc.2 + (if d.attempted then 1 else 0))) acc = acc := by
  induction dings generalizing acc with
  | nil => rfl
  | cons r rest ih => simp [List.foldl, ding, ih]

theorem evalTarget_results_nonempty (t : Target) (probes : Nat → Outcome) (ts : Nat → String) :
    (evalTarget t probes ts).results.isEmpty = false := by
  rcases hf : (pokeAt t probes ts 0).failure with _ | f
  · simp [evalTarget, hf]
  · simp only [evalTarget, hf]
    split <;> simp

theorem runAll_none (l : List (Target × TargetEnv)) (st : List (String × Nat)) :
    runAll none l st = (l.map (fun p => evalTarget p.1 p.2.probes p.2.ts), st, 0) := by
  induction l generalizing st with
  | nil => rfl
  | cons p rest ih =>
    simp [runAll, processTarget, foldl_ding_none, ih]

theorem foldl_writeData_rows (rs : List Result) (f : DataFile) :
    (rs.foldl writeData f).rows = f.rows ++ rs.map dataRow := by
  induction rs generalizing f with
  | nil => simp
  | cons r rest ih =>
    have hw : (writeData f r).rows = f.rows ++ [dataRow r] := by
      simp only [writeData]
      split <;> simp
    simp [List.foldl, ih, hw]

/-- Claim C10: with no notifier entry, every ding call returns at once
without attempting a send and without touching the state map; a whole
run still probes every target (each target run has at least one probe
result) and ends with the state map it started with and zero send
attempts; folding writeData persists one row per result; and a config
whose notifier is missing passes the readConfig validation whenever its
targets do. -/
theorem no_notifier_frame (l : List (Target × TargetEnv)) (st st2 : List (String × Nat))
    (t2 : Target) (res2 : Result) (now2 : Nat) (ok2 : Bool)
    (rts : List RawTarget) (f : DataFile) (rs : List Result) :
    ding none st2 t2 res2 now2 ok2 = { attempted := false, state := st2 } ∧
    (runAll none l st).2.1 = st ∧
    (runAll none l st).2.2 = 0 ∧
    (runAll none l st).1 = l.map (fun p => evalTarget p.1 p.2.probes p.2.ts) ∧
    ((runAll none l st).1.all (fun run => !run.results.isEmpty)) = true ∧
    (rs.foldl writeData f).rows = f.rows ++ rs.map dataRow ∧
    validateConfig { targets := some rts, notifier := none } = validTargets rts [] := by
  refine ⟨rfl, ?_, ?_, ?_, ?_, foldl_writeData_rows rs f, ?_⟩
  · rw [runAll_none]
  · rw [runAll_none]
  · rw [runAll_none]
  · rw [runAll_none]
    simp only [List.all_eq_true, List.mem_map]
    rintro run ⟨p, _, rfl⟩
    simpa using evalTarget_results_nonempty p.1 p.2.probes p.2.ts
  · simp [validateConfig]

theorem rtFails_of_some (t : Target) (probes : Nat → Outcome) (ts : Nat → String) (i : Nat)
    (f : FailureRecord) (h : (pokeAt t probes ts i).failure = some f)
    (ht : f.type = "RESPONSE_TIME") : rtFails t probes ts i := by
  simp [rtFails, h, ht]

theorem not_rtFails_of_none (t : Target) (probes : Nat → Outcome) (ts : Nat → String) (i : Nat)
    (h : (pokeAt t probes ts i).failure = none) : ¬ rtFails t probes ts i := by
  simp [rtFails, h]

theorem not_rtFails_of_other (t : Target) (probes : Nat → Outcome) (ts : Nat → String) (i : Nat)
    (f : FailureRecord) (h : (pokeAt t probes ts i).failure = some f)
    (ht : f.type ≠ "RESPONSE_TIME") : ¬ rtFails t probes ts i := by
  simpa [rtFails, h] using ht

theorem first_nonRT_unique (t : Target) (probes : Nat → Outcome) (ts : Nat → String)
    {idx k k2 : Nat}
    (hk : idx ≤ k) (hbk : ∀ i, idx ≤ i → i < k → rtFails t probes ts i)
    (hnk : ¬ rtFails t probes ts k)
    (hk2 : idx ≤ k2) (hbk2 : ∀ i, idx ≤ i → i < k2 → rtFails t probes ts i)
    (hnk2 : ¬ rtFails t probes ts k2) : k = k2 := by
  rcases lt_trichotomy k k2 with h | h | h
  · exact absurd (hbk2 k hk h) hnk
  · exact h
  · exact absurd (hbk k2 hk2 h) hnk2

/-- Trichotomy of the retry loop started at probe index idx with fuel
iterations left: either every probe in the window fails with
RESPONSE_TIME (the loop runs out of fuel, incrementing the counter each
time and dinging nobody), or the first non-RESPONSE_TIME probe k has no
failure (break without ding), or it has a failure of another type
(ding that result and break). -/
theorem retryLoop_cases (t : Target) (probes : Nat → Outcome) (ts : Nat → String)
    (hr : t.responseTimeRetries ≠ 0) :
    ∀ (fuel idx counter : Nat) (last : Result),
      ((∀ i, idx ≤ i → i < idx + fuel → rtFails t probes ts i) ∧
        (retryLoop t probes ts fuel idx counter last).dings = [] ∧
        (retryLoop t probes ts fuel idx counter last).counter = counter + fuel ∧
        (retryLoop t probes ts fuel idx counter last).results.length = fuel) ∨
      (∃ k, idx ≤ k ∧ k < idx + fuel ∧
        (∀ i, idx ≤ i → i < k → rtFails t probes ts i) ∧
        (pokeAt t probes ts k).failure = none ∧
        (retryLoop t probes ts fuel idx counter last).dings = [] ∧
        (retryLoop t probes ts fuel idx counter last).counter = counter + (k - idx) ∧
        (retryLoop t probes ts fuel idx counter last).results.length = (k - idx) + 1) ∨
      (∃ k g, idx ≤ k ∧ k < idx + fuel ∧
        (∀ i, idx ≤ i → i < k → rtFails t probes ts i) ∧
        (pokeAt t probes ts k).failure = some g ∧ g.type ≠ "RESPONSE_TIME" ∧
        (retryLoop t probes ts fuel idx counter last).dings = [pokeAt t probes ts k] ∧
        (retryLoop t probes ts fuel idx counter last).counter = counter + (k - idx) ∧
        (retryLoop t probes ts fuel idx counter last).results.length = (k - idx) + 1) := by
  intro fuel
  induction fuel with
  | zero =>
    intro idx counter last
    left
    exact ⟨fun i h1 h2 => absurd h2 (by omega), rfl, rfl, rfl⟩
  | succ fuel ih =>
    intro idx counter last
    rcases hf : (pokeAt t probes ts idx).failure with _ | f
    · right; left
      refine ⟨idx, le_refl idx, by omega, fun i h1 h2 => absurd h2 (by omega), hf, ?_, ?_, ?_⟩ <;>
        simp [retryLoop, hf]
    · by_cases ht : f.type = "RESPONSE_TIME"
      · have hdings : (retryLoop t probes ts (fuel+1) idx counter last).dings =
            (retryLoop t probes ts fuel (idx+1) (counter+1) (pokeAt t probes ts idx)).dings := by
          simp [retryLoop, hf, ht, hr]
        have hcounter : (retryLoop t probes ts (fuel+1) idx counter last).counter =
            (retryLoop t probes ts fuel (idx+1) (counter+1) (pokeAt t probes ts idx)).counter := by
          simp [retryLoop, hf, ht, hr]
        have hlen : (retryLoop t probes ts (fuel+1) idx counter last).results.length =
            (retryLoop t probes ts fuel (idx+1) (counter+1) (pokeAt t probes ts idx)).results.length
              + 1 := by
          simp [retryLoop, hf, ht, hr]
        rcases ih (idx+1) (counter+1) (pokeAt t probes ts idx) with
          ⟨hall, hd, hc, hl⟩ | ⟨k, hk1, hk2, hbef, hnone, hd, hc, hl⟩ |
          ⟨k, g, hk1, hk2, hbef, hsome, hty, hd, hc, hl⟩
        · left
          refine ⟨?_, ?_, ?_, ?_⟩
          · intro i h1 h2
            rcases Nat.eq_or_lt_of_le h1 with h1e | h1x
            · exact h1e ▸ rtFails_of_some t probes ts idx f hf ht
            · exact hall i (by omega) (by omega)
          · rw [hdings]
            exact hd
          · rw [hcounter, hc]
            omega
          · rw [hlen, hl]
        · right; left
          refine ⟨k, by omega, by omega, ?_, hnone, ?_, ?_, ?_⟩
          · intro i h1 h2
            rcases Nat.eq_or_lt_of_le h1 with h1e | h1x
            · exact h1e ▸ rtFails_of_some t probes ts idx f hf ht
            · exact hbef i (by omega) h2
          · rw [hdings]
            exact hd
          · rw [hcounter, hc]
            omega
          · rw [hlen, hl]
            omega
        · right; right
          refine ⟨k, g, by omega, by omega, ?_, hsome, hty, ?_, ?_, ?_⟩
          · intro i h1 h2
            rcases Nat.eq_or_lt_of_le h1 with h1e | h1x
            · exact h1e ▸ rtFails_of_some t probes ts idx f hf ht
            · exact hbef i (by omega) h2
          · rw [hdings]
            exact hd
          · rw [hcounter, hc]
            omega
          · rw [hlen, hl]
            omega
      · right; right
        refine ⟨idx, f, le_refl idx, by omega, fun i h1 h2 => absurd h2 (by omega), hf, ht,
          ?_, ?_, ?_⟩ <;> simp [retryLoop, hf, ht]

theorem evalTarget_retry_dings (t : Target) (probes : Nat → Outcome) (ts : Nat → String)
    (f0 : FailureRecord) (h : (pokeAt t probes ts 0).failure = some f0)
    (ht : f0.type = "RESPONSE_TIME") (hr : t.responseTimeRetries ≠ 0) :
    (evalTarget t probes ts).dings =
      (retryLoop t probes ts t.responseTimeRetries 1 1 (pokeAt t probes ts 0)).dings ++
      (if (retryLoop t probes ts t.responseTimeRetries 1 1 (pokeAt t probes ts 0)).counter >
          t.responseTimeRetries
       then [(retryLoop t probes ts t.responseTimeRetries 1 1 (pokeAt t probes ts 0)).last]
       else []) := by
  simp [evalTarget, h, ht, hr]

theorem evalTarget_retry_results_len (t : Target) (probes : Nat → Outcome) (ts : Nat → String)
    (f0 : FailureRecord) (h : (pokeAt t probes ts 0).failure = some f0)
    (ht : f0.type = "RESPONSE_TIME") (hr : t.responseTimeRetries ≠ 0) :
    (evalTarget t probes ts).results.length =
      (retryLoop t probes ts t.responseTimeRetries 1 1 (pokeAt t probes ts 0)).results.length
        + 1 := by
  simp [evalTarget, h, ht, hr]

/-- Counterexample for C2: with responseTimeRetries = 1, an initial
RESPONSE_TIME failure and a single retry that fails with STATUS, the
run attempts exactly one notification although it is not the case that
all r additional probes failed with RESPONSE_TIME — refuting the
only-if direction of the claim. -/
theorem retry_notification_iff_cex :
    (evalTarget oneRetryTarget slowThenBadStatus constT).dings.length = 1 ∧
    (pokeAt oneRetryTarget slowThenBadStatus constT 1).failure.map
      FailureRecord.type = some "STATUS" ∧
    (some "STATUS" : Option String) ≠ some "RESPONSE_TIME" := by
  exact ⟨rfl, rfl, by decide⟩

/-- Claim C2 amended: for a target with responseTimeRetries = r > 0
whose initial probe fails with RESPONSE_TIME, at most one notification
is attempted, and exactly one is attempted if and only if no retry
probe within the budget returns a failure-free Result after a streak of
RESPONSE_TIME failures (equivalently: zero notifications exactly when a
retry succeeds, one notification both when all r retries fail with
RESPONSE_TIME — the counter 1 + r then exceeds r — and when an earlier
retry fails with a different type, which notifies for that result).
The dings list holds the results for which ding is invoked. -/
theorem retry_notification_characterization (t : Target) (probes : Nat → Outcome)
    (ts : Nat → String) (hr : t.responseTimeRetries ≠ 0)
    (h0 : (pokeAt t probes ts 0).failure.map FailureRecord.type = some "RESPONSE_TIME") :
    (evalTarget t probes ts).dings.length ≤ 1 ∧
    ((evalTarget t probes ts).dings.length = 1 ↔
      ¬ ∃ k, 1 ≤ k ∧ k ≤ t.responseTimeRetries ∧
        (pokeAt t probes ts k).failure = none ∧
        ∀ i, 1 ≤ i → i < k → rtFails t probes ts i) := by
  obtain ⟨f0, hf0, hft⟩ := Option.map_eq_some'.mp h0
  have hd := evalTarget_retry_dings t probes ts f0 hf0 hft hr
  rcases retryLoop_cases t probes ts hr t.responseTimeRetries 1 1 (pokeAt t probes ts 0) with
    ⟨hall, hld, hlc, hll⟩ | ⟨k, hk1, hk2, hbef, hnone, hld, hlc, hll⟩ |
    ⟨k, g, hk1, hk2, hbef, hsome, hty, hld, hlc, hll⟩
  · have hpost :
        (retryLoop t probes ts t.responseTimeRetries 1 1 (pokeAt t probes ts 0)).counter >
          t.responseTimeRetries := by
      rw [hlc]
      omega
    rw [hd, hld, if_pos hpost]
    refine ⟨by simp, ?_⟩
    constructor
    · intro _
      rintro ⟨k, hk1x, hk2x, hnonex, _⟩
      exact not_rtFails_of_none t probes ts k hnonex (hall k (by omega) (by omega))
    · intro _
      simp
  · have hpost :
        ¬ ((retryLoop t probes ts t.responseTimeRetries 1 1 (pokeAt t probes ts 0)).counter >
          t.responseTimeRetries) := by
      rw [hlc]
      omega
    rw [hd, hld, if_neg hpost]
    refine ⟨by simp, ?_⟩
    constructor
    · intro h01
      exact absurd h01 (by simp)
    · intro hno
      exfalso
      exact hno ⟨k, by omega, by omega, hnone, fun i h1 h2 => hbef i h1 h2⟩
  · have hpost :
        ¬ ((retryLoop t probes ts t.responseTimeRetries 1 1 (pokeAt t probes ts 0)).counter >
          t.responseTimeRetries) := by
      rw [hlc]
      omega
    rw [hd, hld, if_neg hpost]
    refine ⟨by simp, ?_⟩
    constructor
    · intro _
      rintro ⟨k2, hk1x, hk2x, hnonex, hbefx⟩
      have hkk : k = k2 := first_nonRT_unique t probes ts hk1 hbef
        (not_rtFails_of_other t probes ts k g hsome hty) hk1x hbefx
        (not_rtFails_of_none t probes ts k2 hnonex)
      rw [hkk, hnonex] at hsome
      cases hsome
    · intro _
      simp

/-- Witness for C2 at concrete inputs: with responseTimeRetries = 2 and
three consecutive slow responses, the characterization holds, exactly
one notification is attempted, and with two slow responses followed by
a passing one, zero notifications are attempted. -/
theorem retry_notification_characterization_witness :
    (exTarget2.responseTimeRetries ≠ 0) ∧
    ((pokeAt exTarget2 allSlow constT 0).failure.map
      FailureRecord.type = some "RESPONSE_TIME") ∧
    ((evalTarget exTarget2 allSlow constT).dings.length ≤ 1 ∧
      ((evalTarget exTarget2 allSlow constT).dings.length = 1 ↔
        ¬ ∃ k, 1 ≤ k ∧ k ≤ exTarget2.responseTimeRetries ∧
          (pokeAt exTarget2 allSlow constT k).failure = none ∧
          ∀ i, 1 ≤ i → i < k → rtFails exTarget2 allSlow constT i)) ∧
    (evalTarget exTarget2 allSlow constT).dings.length = 1 ∧
    (evalTarget exTarget2 twoSlowThenOk constT).dings.length = 0 := by
  refine ⟨by decide, rfl, ?_, rfl, rfl⟩
  exact retry_notification_characterization exTarget2 allSlow constT (by decide) rfl

/-- Claim C7: once the retry phase is entered after an initial
RESPONSE_TIME failure with a nonzero budget, at most
1 + responseTimeRetries probes are issued in total; the loop stops at
the first retry with no failure, attempting no notification, and stops
at the first retry failing with another type, attempting exactly the
notification for that result. -/
theorem retry_loop_bounds_and_stops (t : Target) (probes : Nat → Outcome)
    (ts : Nat → String) (hr : t.responseTimeRetries ≠ 0)
    (h0 : (pokeAt t probes ts 0).failure.map FailureRecord.type = some "RESPONSE_TIME") :
    (evalTarget t probes ts).results.length ≤ 1 + t.responseTimeRetries ∧
    (∀ k, 1 ≤ k → k ≤ t.responseTimeRetries →
      (pokeAt t probes ts k).failure = none →
      (∀ i, 1 ≤ i → i < k → rtFails t probes ts i) →
      (evalTarget t probes ts).results.length = k + 1 ∧
      (evalTarget t probes ts).dings = []) ∧
    (∀ k g, 1 ≤ k → k ≤ t.responseTimeRetries →
      (pokeAt t probes ts k).failure = some g → g.type ≠ "RESPONSE_TIME" →
      (∀ i, 1 ≤ i → i < k → rtFails t probes ts i) →
      (evalTarget t probes ts).results.length = k + 1 ∧
      (evalTarget t probes ts).dings = [pokeAt t probes ts k]) := by
  obtain ⟨f0, hf0, hft⟩ := Option.map_eq_some'.mp h0
  have hd := evalTarget_retry_dings t probes ts f0 hf0 hft hr
  have hl := evalTarget_retry_results_len t probes ts f0 hf0 hft hr
  rcases retryLoop_cases t probes ts hr t.responseTimeRetries 1 1 (pokeAt t probes ts 0) with
    ⟨hall, hld, hlc, hll⟩ | ⟨k, hk1, hk2, hbef, hnone, hld, hlc, hll⟩ |
    ⟨k, g, hk1, hk2, hbef, hsome, hty, hld, hlc, hll⟩
  · refine ⟨by rw [hl, hll]; omega, ?_, ?_⟩
    · intro k hkx1 hkx2 hnonex hbefx
      exact absurd (hall k (by omega) (by omega))
        (not_rtFails_of_none t probes ts k hnonex)
    · intro k g hkx1 hkx2 hsomex htyx hbefx
      exact absurd (hall k (by omega) (by omega))
        (not_rtFails_of_other t probes ts k g hsomex htyx)
  · have hpost :
        ¬ ((retryLoop t probes ts t.responseTimeRetries 1 1 (pokeAt t probes ts 0)).counter >
          t.responseTimeRetries) := by
      rw [hlc]
      omega
    refine ⟨by rw [hl, hll]; omega, ?_, ?_⟩
    · intro k2 hkx1 hkx2 hnonex hbefx
      have hkk : k = k2 := first_nonRT_unique t probes ts hk1 hbef
        (not_rtFails_of_none t probes ts k hnone) hkx1 hbefx
        (not_rtFails_of_none t probes ts k2 hnonex)
      constructor
      · rw [hl, hll]
        omega
      · rw [hd, hld, if_neg hpost]
        rfl
    · intro k2 g2 hkx1 hkx2 hsomex htyx hbefx
      have hkk : k = k2 := first_nonRT_unique t probes ts hk1 hbef
        (not_rtFails_of_none t probes ts k hnone) hkx1 hbefx
        (not_rtFails_of_other t probes ts k2 g2 hsomex htyx)
      rw [hkk, hsomex] at hnone
      cases hnone
  · have hpost :
        ¬ ((retryLoop t probes ts t.responseTimeRetries 1 1 (pokeAt t probes ts 0)).counter >
          t.responseTimeRetries) := by
      rw [hlc]
      omega
    refine ⟨by rw [hl, hll]; omega, ?_, ?_⟩
    · intro k2 hkx1 hkx2 hnonex hbefx
      have hkk : k = k2 := first_nonRT_unique t probes ts hk1 hbef
        (not_rtFails_of_other t probes ts k g hsome hty) hkx1 hbefx
        (not_rtFails_of_none t probes ts k2 hnonex)
      rw [hkk, hnonex] at hsome
      cases hsome
    · intro k2 g2 hkx1 hkx2 hsomex htyx hbefx
      have hkk : k = k2 := first_nonRT_unique t probes ts hk1 hbef
        (not_rtFails_of_other t probes ts k g hsome hty) hkx1 hbefx
        (not_rtFails_of_other t probes ts k2 g2 hsomex htyx)
      constructor
      · rw [hl, hll]
        omega
      · rw [hd, hld, if_neg hpost, hkk]
        simp

/-- Witness for C7 at concrete inputs: with responseTimeRetries = 2, a
slow first probe and a passing first retry, the run issues exactly two
probes (of at most three allowed) and attempts no notification. -/
theorem retry_loop_bounds_and_stops_witness :
    ((pokeAt exTarget2 slowThenOk constT 1).failure = none) ∧
    (evalTarget exTarget2 slowThenOk constT).results.length = 2 ∧
    (evalTarget exTarget2 slowThenOk constT).dings = [] := by
  refine ⟨rfl, ?_⟩
  exact (retry_loop_bounds_and_stops exTarget2 slowThenOk constT (by decide) rfl).2.1
    1 (by decide) (by decide) rfl (fun i h1 h2 => absurd h2 (by omega))

end PingAndDing
